import Mathlib

/-!
Verification of the irrigation-planner calculation engine.

The engine is embedded shallowly: each JavaScript function becomes a Lean
definition over exact arithmetic (rationals where the source uses only
field operations, reals where the source uses fractional powers or square
roots).  JavaScript idioms are modelled as follows:

* numeric values are rationals or reals (exact arithmetic);
* the fallback pattern x || d (with a nonzero constant d) becomes
  if x = 0 then d else x, since for numeric inputs the only falsy numeric
  value is 0;
* Math.max / Math.min become max / min, Math.ceil becomes Int.ceil,
  Math.round becomes round (round half up, as in JavaScript for the
  positive values in range), Math.sqrt becomes Real.sqrt, and
  Math.pow x y becomes the real power x ^ y;
* values read from DOM elements become explicit function parameters.
-/

namespace IrrigationPlanner

/-! ### Water balance, variant of src/unnamed/part_001 (rational arithmetic) -/

/-- Inputs of calculateWaterDemandLperDay in src/unnamed/part_001: area in
rai, a scalar crop coefficient kc, four stage coefficients, reference
evapotranspiration eto (mm/day), rainfall (mm/day) and efficiency as a
percentage. -/
structure DemandInputs where
  areaRai : ℚ
  kc : ℚ
  kcInitial : ℚ
  kcDevelopment : ℚ
  kcMid : ℚ
  kcLate : ℚ
  eto : ℚ
  rainfall : ℚ
  efficiency : ℚ
deriving DecidableEq

/-- DEFAULT_STAGE_DAYS in src/unnamed/part_001: initial 20, development 30,
mid 40, late 30 days. -/
def DEFAULT_STAGE_DAYS : ℚ × ℚ × ℚ × ℚ := (20, 30, 40, 30)

/-- computeSeasonalKc from src/unnamed/part_001: weighted seasonal Kc over
the four stages, with the JavaScript fallback chain
weightedKc || inputs.kc || 1.0. -/
def computeSeasonalKc (inputs : DemandInputs) : ℚ :=
  let stageInitial := DEFAULT_STAGE_DAYS.1
  let stageDevelopment := DEFAULT_STAGE_DAYS.2.1
  let stageMid := DEFAULT_STAGE_DAYS.2.2.1
  let stageLate := DEFAULT_STAGE_DAYS.2.2.2
  let totalDays := stageInitial + stageDevelopment + stageMid + stageLate
  let weightedKc :=
    (inputs.kcInitial * stageInitial + inputs.kcDevelopment * stageDevelopment +
      inputs.kcMid * stageMid + inputs.kcLate * stageLate) / totalDays
  if weightedKc = 0 then (if inputs.kc = 0 then 1 else inputs.kc) else weightedKc

/-- calculateEffectiveRainFAO56 from src/unnamed/part_001: USDA-SCS
piecewise effective rainfall.  P is floored at 0; for P at most 250 mm,
Pe = P * (125 - 0.2 * P) / 125, otherwise Pe = 125 + 0.1 * P; the result
is floored at 0. -/
def calculateEffectiveRainFAO56 (rainfallMm : ℚ) : ℚ :=
  let P := max 0 rainfallMm
  let Pe := if P ≤ 250 then P * (125 - 0.2 * P) / 125 else 125 + 0.1 * P
  max 0 Pe

/-- Result record of calculateWaterDemandLperDay in src/unnamed/part_001. -/
structure WaterBalance where
  areaM2 : ℚ
  seasonalKc : ℚ
  etc : ℚ
  effectiveRain : ℚ
  netIrrigation : ℚ
  efficiency : ℚ
  appliedDepth : ℚ
  waterDemandLday : ℚ
deriving DecidableEq

/-- calculateWaterDemandLperDay from src/unnamed/part_001: FAO-56 style
water demand.  Area is converted from rai (1 rai = 1600 m2), ETc is
eto * seasonalKc, the effective rain uses the USDA-SCS curve, the net
irrigation requirement is floored at 0, the efficiency percentage is
defaulted to 80 and floored at 0.01 after division by 100, and the demand
in liters per day is appliedDepth * areaM2. -/
def calculateWaterDemandLperDay (inputs : DemandInputs) : WaterBalance :=
  let areaM2 := inputs.areaRai * 1600
  let seasonalKc := computeSeasonalKc inputs
  let etc := inputs.eto * seasonalKc
  let effectiveRain := calculateEffectiveRainFAO56 inputs.rainfall
  let netIrrigation := max 0 (etc - effectiveRain)
  let efficiency := max 0.01 ((if inputs.efficiency = 0 then 80 else inputs.efficiency) / 100)
  let appliedDepth := netIrrigation / efficiency
  { areaM2 := areaM2
    seasonalKc := seasonalKc
    etc := etc
    effectiveRain := effectiveRain
    netIrrigation := netIrrigation
    efficiency := efficiency
    appliedDepth := appliedDepth
    waterDemandLday := appliedDepth * areaM2 }

/-! ### Seasonal simulation, variant of src/script.js (rational arithmetic) -/

/-- One row of the monthly table built by runSeasonalSimulation in
src/script.js: month index, the month inputs and the computed demand. -/
structure MonthRecord where
  month : ℕ
  eto : ℚ
  rainfall : ℚ
  kc : ℚ
  waterDemand : ℚ
deriving DecidableEq

/-- The per-month record of runSeasonalSimulation in src/script.js: Kc by
stage boundary (months 0 to 2 initial, 3 to 8 mid, 9 to 11 late),
ETc = kc * eto, effective rainfall = rainfall * 0.8, net irrigation
floored at 0, demand = net * area * 10000 liters per day. -/
def monthRecord (kcInitial kcMid kcLate area : ℚ) (eto rain : ℕ → ℚ) (i : ℕ) : MonthRecord :=
  let kc := if i < 3 then kcInitial else if i < 9 then kcMid else kcLate
  let etc := kc * eto i
  let effectiveRainfall := rain i * 0.8
  let netIrrigation := max 0 (etc - effectiveRainfall)
  let waterDemand := netIrrigation * area * 10000
  { month := i, eto := eto i, rainfall := rain i, kc := kc, waterDemand := waterDemand }

/-- The 12-row monthly table of runSeasonalSimulation in src/script.js. -/
def monthlyData (kcInitial kcMid kcLate area : ℚ) (eto rain : ℕ → ℚ) : List MonthRecord :=
  (List.range 12).map (monthRecord kcInitial kcMid kcLate area eto rain)

/-- One step of the reduce that finds the peak month in
runSeasonalSimulation: curr replaces the accumulator only when its demand
is strictly larger. -/
def peakStep (acc curr : MonthRecord) : MonthRecord :=
  if acc.waterDemand < curr.waterDemand then curr else acc

/-- JavaScript Array.reduce without an initial value: the first element
seeds the accumulator, the rest are folded; none on the empty list. -/
def jsReduceMax : List MonthRecord → Option MonthRecord
  | [] => none
  | h :: t => some (t.foldl peakStep h)

/-- The peak month computed by runSeasonalSimulation in src/script.js:
monthlyData.reduce keeping the record with strictly larger demand. -/
def runSeasonalPeakMonth (kcInitial kcMid kcLate area : ℚ) (eto rain : ℕ → ℚ) :
    Option MonthRecord :=
  jsReduceMax (monthlyData kcInitial kcMid kcLate area eto rain)

/-! ### The src/script.js calculation chain (real arithmetic)

The script.js chain uses Math.sqrt and fractional Math.pow, so it is
embedded over the reals; the definitions in this section are therefore
noncomputable, and the theorems about them never need to evaluate the
transcendental parts. -/

noncomputable section

open Classical in
/-- calculateWaterDemand from src/script.js: the area is in hectares,
rainfall is subtracted as-is (simple policy, no efficiency division):
demand = max 0 (kc * eto - rainfall) * area * 10000 in liters per day. -/
def calculateWaterDemand (area kc eto rainfall : ℝ) : ℝ :=
  let etc := kc * eto
  let netIrrigation := max 0 (etc - rainfall)
  netIrrigation * area * 10000

/-- calculatePipeLength from src/script.js: side = sqrt(area * 10000),
estimated length = side * 2 * 1.2, rounded. -/
def calculatePipeLength (area : ℝ) : ℝ :=
  let areaM2 := area * 10000
  let sideLength := Real.sqrt areaM2
  let estimatedLength := sideLength * 2 * 1.2
  ((round estimatedLength : ℤ) : ℝ)

/-- The Hazen-Williams friction loss used by calculateHeadLoss in
src/script.js and calculateHydraulics in src/unnamed/part_001:
hf = 10.67 * Q to the 1.852 * L / (C to the 1.852 * D to the 4.871)
with C = 150, flow in cubic meters per second and lengths in meters. -/
def hazenWilliamsHf (flowM3s lengthM diameterM : ℝ) : ℝ :=
  10.67 * flowM3s ^ (1.852 : ℝ) * lengthM /
    ((150 : ℝ) ^ (1.852 : ℝ) * diameterM ^ (4.871 : ℝ))

/-- The head-loss percentage of calculateHeadLoss in src/script.js:
hf over the fixed 30 m operating head, times 100, clamped to [0, 100]. -/
def headLossPercentOf (flowM3s lengthM diameterM : ℝ) : ℝ :=
  let hf := hazenWilliamsHf flowM3s lengthM diameterM
  let operatingHead : ℝ := 30
  let headLossPercent := hf / operatingHead * 100
  max 0 (min 100 headLossPercent)

/-- calculateHeadLoss from src/script.js: flow is the daily demand spread
over 24 hours in cubic meters per second, length from calculatePipeLength,
diameter converted from millimeters. -/
def calculateHeadLoss (area kc eto rainfall diameterMm : ℝ) : ℝ :=
  let waterDemand := calculateWaterDemand area kc eto rainfall
  let flowRate := waterDemand / (24 * 3600)
  let flowRateM3s := flowRate / 1000
  headLossPercentOf flowRateM3s (calculatePipeLength area) (diameterMm / 1000)

/-- The core of calculateMaxLateralLength in src/script.js: flow per
lateral is demand / 10, converted to cubic meters per second; the length
giving 5 percent of the 30 m operating head is obtained by inverting
Hazen-Williams, and the result is min(maxLateral, max(50, maxLength)). -/
def maxLateralLengthOf (waterDemand diameterMm maxLateral : ℝ) : ℝ :=
  let flowPerLateral := waterDemand / 10
  let flowRate := flowPerLateral / (24 * 3600 * 1000)
  let diameterM := diameterMm / 1000
  let C : ℝ := 150
  let maxHeadLoss : ℝ := 0.05 * 30
  let maxLength := maxHeadLoss * C ^ (1.852 : ℝ) * diameterM ^ (4.871 : ℝ) /
    (10.67 * flowRate ^ (1.852 : ℝ))
  min maxLateral (max 50 maxLength)

/-- calculateMaxLateralLength from src/script.js, with the demand computed
by calculateWaterDemand from the same parameters. -/
def calculateMaxLateralLength (area kc eto rainfall diameterMm maxLateral : ℝ) : ℝ :=
  maxLateralLengthOf (calculateWaterDemand area kc eto rainfall) diameterMm maxLateral

/-- JavaScript Number.toFixed(1) reparsed as a number: rounding to one
decimal place. -/
def roundTo1 (x : ℝ) : ℝ := ((round (x * 10) : ℤ) : ℝ) / 10

open Classical in
/-- calculateMaxLateralLengthFromDemand from src/unnamed/part_001: the
diameter defaults to 110 and the user setting to 100 through the
JavaScript || fallback; flow uses the operating hours (floored at 1);
the inverted Hazen-Williams length is rounded to one decimal and the
result is min(userSetting, max(20, maxLength)). -/
def calculateMaxLateralLengthFromDemand
    (waterDemandLday mainDiameterMm userMaxLateral hoursPerDay : ℝ) : ℝ :=
  let diameter := if mainDiameterMm = 0 then 110 else mainDiameterMm
  let maxLateralSetting := if userMaxLateral = 0 then 100 else userMaxLateral
  let flowTotalLps := waterDemandLday / (max 1 hoursPerDay * 3600)
  let flowPerLateralLps := flowTotalLps / 10
  let flowRate := flowPerLateralLps / 1000
  let diameterM := diameter / 1000
  let C : ℝ := 150
  let maxHeadLoss : ℝ := 0.05 * 30
  let maxLength := maxHeadLoss * C ^ (1.852 : ℝ) * diameterM ^ (4.871 : ℝ) /
    (10.67 * flowRate ^ (1.852 : ℝ))
  min maxLateralSetting (max 20 (roundTo1 maxLength))

/-- The zone count as a function of the daily demand: zones =
max(1, ceil(demand / 50000)), the shared body of calculateZones in
src/script.js and src/unnamed/part_000. -/
def zoneCountOf (waterDemand : ℝ) : ℤ :=
  let maxZoneCapacity : ℝ := 50000
  max 1 ⌈waterDemand / maxZoneCapacity⌉

/-- calculateZones from src/script.js: zone count from the computed daily
demand. -/
def calculateZones (area kc eto rainfall : ℝ) : ℤ :=
  zoneCountOf (calculateWaterDemand area kc eto rainfall)

/-- The per-zone length Math.ceil(pipeLength / zones) used by
buildDesignResponseFromState and updateZoneChart in src/unnamed/part_000
and src/script.js. -/
def lengthPerZoneOf (pipeLength : ℝ) (zones : ℤ) : ℤ :=
  ⌈pipeLength / (zones : ℝ)⌉

/-- The item labels of calculateBOM; Main Pipe carries the interpolated
diameter of its display string. -/
inductive ItemName where
  | mainPipe (diameterMm : ℝ)
  | lateralPipes
  | pipeFittings
  | controlValves
  | dripEmitters
  | irrigationPump
  | irrigationController

/-- One line of the bill of materials built by calculateBOM in
src/script.js and src/unnamed/part_000. -/
structure BOMItem where
  item : ItemName
  quantity : ℝ
  unit : String
  unitPrice : ℝ
  total : ℝ

open Classical in
/-- The prices.pipe lookup of calculateBOM with its 5.0 fallback for
unknown diameters. -/
def pipeUnitPrice (diameterMm : ℝ) : ℝ :=
  if diameterMm = 50 then 2.5
  else if diameterMm = 63 then 3
  else if diameterMm = 75 then 3.5
  else if diameterMm = 90 then 4
  else if diameterMm = 110 then 5
  else if diameterMm = 125 then 6
  else if diameterMm = 140 then 7
  else if diameterMm = 160 then 8
  else 5

/-- calculateBOM from src/script.js and src/unnamed/part_000: seven fixed
line items priced from the pipe length, zone count, area and diameter. -/
def calculateBOM (area kc eto rainfall diameterMm : ℝ) : List BOMItem :=
  let pipeLength := calculatePipeLength area
  let zones := calculateZones area kc eto rainfall
  let pipePrice := pipeUnitPrice diameterMm
  let mainQty : ℤ := ⌈pipeLength⌉
  let lateralLength : ℤ := ⌈pipeLength * 0.5⌉
  let numFittings : ℤ := ⌈pipeLength / 20⌉
  let numEmitters : ℤ := ⌈area * 10000⌉
  [ { item := ItemName.mainPipe diameterMm, quantity := (mainQty : ℝ), unit := "m",
      unitPrice := pipePrice, total := (mainQty : ℝ) * pipePrice },
    { item := ItemName.lateralPipes, quantity := (lateralLength : ℝ), unit := "m",
      unitPrice := 1.5, total := (lateralLength : ℝ) * 1.5 },
    { item := ItemName.pipeFittings, quantity := (numFittings : ℝ), unit := "pcs",
      unitPrice := 15, total := (numFittings : ℝ) * 15 },
    { item := ItemName.controlValves, quantity := (zones : ℝ), unit := "pcs",
      unitPrice := 25, total := (zones : ℝ) * 25 },
    { item := ItemName.dripEmitters, quantity := (numEmitters : ℝ), unit := "pcs",
      unitPrice := 0.5, total := (numEmitters : ℝ) * 0.5 },
    { item := ItemName.irrigationPump, quantity := 1, unit := "pcs",
      unitPrice := 500, total := 500 },
    { item := ItemName.irrigationController, quantity := 1, unit := "pcs",
      unitPrice := 200, total := 200 } ]

/-- One entry of zones.details in the design response of
src/unnamed/part_000. -/
structure ZoneDetail where
  zoneId : ℕ
  lengthM : ℤ

/-- The design response of buildDesignResponseFromState in
src/unnamed/part_000, restricted to its numeric payload (the timestamp,
validation strings and the satellite stub never enter any calculation). -/
structure DesignResponse where
  waterDemandLday : ℝ
  pipeLengthM : ℝ
  headLossPercent : ℝ
  maxLateralLengthM : ℝ
  zonesCount : ℤ
  zonesLengthPerZoneM : ℤ
  zoneDetails : List ZoneDetail
  bom : List BOMItem
  totalCost : ℝ

/-- buildDesignResponseFromState from src/unnamed/part_000, with the
calculation state fields expressed through the calculation functions that
calculateAll uses to fill them: demand, pipe length, head loss, max
lateral length and the bill of materials; zones and the per-zone length
are recomputed inside, and totalCost is the reduce over item.total. -/
def buildDesignResponseFromState (area kc eto rainfall diameterMm maxLateral : ℝ) :
    DesignResponse :=
  let waterDemand := calculateWaterDemand area kc eto rainfall
  let pipeLength := calculatePipeLength area
  let zones := calculateZones area kc eto rainfall
  let bom := calculateBOM area kc eto rainfall diameterMm
  let bomTotal := (bom.map (fun it => it.total)).sum
  let lengthPerZone := lengthPerZoneOf pipeLength zones
  { waterDemandLday := waterDemand
    pipeLengthM := pipeLength
    headLossPercent := calculateHeadLoss area kc eto rainfall diameterMm
    maxLateralLengthM := calculateMaxLateralLength area kc eto rainfall diameterMm maxLateral
    zonesCount := zones
    zonesLengthPerZoneM := lengthPerZone
    zoneDetails := (List.range zones.toNat).map
      (fun i => { zoneId := i + 1, lengthM := lengthPerZone })
    bom := bom
    totalCost := bomTotal }

end

/-! ## Theorems -/

section Theorems

/-- Claim C1: golden-value scenario for the water balance.  With Kc 0.3
(weighted over four equal stage values, or as the scalar fallback),
ET0 5 mm/day, rainfall 0 and efficiency 80 percent, the intermediate
results are ETc 1.5 mm/day, NIR 1.5 mm/day and gross applied depth
1.875 mm/day, and the demand is 30000 L/day on 16000 m2 (10 rai) and
187500 L/day on 100000 m2 (10 hectares, reached as 62.5 rai since
1 hectare is 6.25 rai). -/
theorem golden_scenario_water_balance :
    (calculateWaterDemandLperDay
        { areaRai := 10, kc := 0, kcInitial := 0.3, kcDevelopment := 0.3, kcMid := 0.3,
          kcLate := 0.3, eto := 5, rainfall := 0, efficiency := 80 }).seasonalKc = 0.3 ∧
    (calculateWaterDemandLperDay
        { areaRai := 10, kc := 0.3, kcInitial := 0, kcDevelopment := 0, kcMid := 0,
          kcLate := 0, eto := 5, rainfall := 0, efficiency := 80 }).seasonalKc = 0.3 ∧
    (calculateWaterDemandLperDay
        { areaRai := 10, kc := 0, kcInitial := 0.3, kcDevelopment := 0.3, kcMid := 0.3,
          kcLate := 0.3, eto := 5, rainfall := 0, efficiency := 80 }).etc = 1.5 ∧
    (calculateWaterDemandLperDay
        { areaRai := 10, kc := 0, kcInitial := 0.3, kcDevelopment := 0.3, kcMid := 0.3,
          kcLate := 0.3, eto := 5, rainfall := 0, efficiency := 80 }).netIrrigation = 1.5 ∧
    (calculateWaterDemandLperDay
        { areaRai := 10, kc := 0, kcInitial := 0.3, kcDevelopment := 0.3, kcMid := 0.3,
          kcLate := 0.3, eto := 5, rainfall := 0, efficiency := 80 }).appliedDepth = 1.875 ∧
    (calculateWaterDemandLperDay
        { areaRai := 10, kc := 0, kcInitial := 0.3, kcDevelopment := 0.3, kcMid := 0.3,
          kcLate := 0.3, eto := 5, rainfall := 0, efficiency := 80 }).areaM2 = 16000 ∧
    (calculateWaterDemandLperDay
        { areaRai := 10, kc := 0, kcInitial := 0.3, kcDevelopment := 0.3, kcMid := 0.3,
          kcLate := 0.3, eto := 5, rainfall := 0, efficiency := 80 }).waterDemandLday = 30000 ∧
    (calculateWaterDemandLperDay
        { areaRai := 10, kc := 0.3, kcInitial := 0, kcDevelopment := 0, kcMid := 0,
          kcLate := 0, eto := 5, rainfall := 0, efficiency := 80 }).waterDemandLday = 30000 ∧
    (calculateWaterDemandLperDay
        { areaRai := 62.5, kc := 0, kcInitial := 0.3, kcDevelopment := 0.3, kcMid := 0.3,
          kcLate := 0.3, eto := 5, rainfall := 0, efficiency := 80 }).areaM2 = 100000 ∧
    (calculateWaterDemandLperDay
        { areaRai := 62.5, kc := 0, kcInitial := 0.3, kcDevelopment := 0.3, kcMid := 0.3,
          kcLate := 0.3, eto := 5, rainfall := 0, efficiency := 80 }).waterDemandLday = 187500 := by
  norm_num [calculateWaterDemandLperDay, computeSeasonalKc, calculateEffectiveRainFAO56,
    DEFAULT_STAGE_DAYS]

/-- Claim C2, counterexample: the claim as stated is false on the code.
With ET0 = -1, stage Kc 0.5 and rainfall 0, the computed ETc is -1/2,
not 0; and with areaRai = -10 (area below 0) and positive demand inputs
the returned demand is -50000, which is negative rather than 0. -/
theorem water_demand_edge_cases_cex :
    ((calculateWaterDemandLperDay
        { areaRai := 10, kc := 0, kcInitial := 0.5, kcDevelopment := 0.5, kcMid := 0.5,
          kcLate := 0.5, eto := -1, rainfall := 0, efficiency := 80 }).etc = -(1/2) ∧
      (calculateWaterDemandLperDay
        { areaRai := 10, kc := 0, kcInitial := 0.5, kcDevelopment := 0.5, kcMid := 0.5,
          kcLate := 0.5, eto := -1, rainfall := 0, efficiency := 80 }).etc ≠ 0) ∧
    ((calculateWaterDemandLperDay
        { areaRai := -10, kc := 0, kcInitial := 0.5, kcDevelopment := 0.5, kcMid := 0.5,
          kcLate := 0.5, eto := 5, rainfall := 0, efficiency := 80 }).waterDemandLday = -50000 ∧
      (calculateWaterDemandLperDay
        { areaRai := -10, kc := 0, kcInitial := 0.5, kcDevelopment := 0.5, kcMid := 0.5,
          kcLate := 0.5, eto := 5, rainfall := 0, efficiency := 80 }).waterDemandLday < 0) ∧
    (-1 : ℚ) ≤ 0 ∧ (-10 : ℚ) ≤ 0 ∧ (0 : ℚ) ≤ 0 := by
  norm_num [calculateWaterDemandLperDay, computeSeasonalKc, calculateEffectiveRainFAO56,
    DEFAULT_STAGE_DAYS]

/-- Helper: the seasonal Kc is nonnegative when every Kc input is. -/
theorem computeSeasonalKc_nonneg (I : DemandInputs) (h1 : 0 ≤ I.kc) (h2 : 0 ≤ I.kcInitial)
    (h3 : 0 ≤ I.kcDevelopment) (h4 : 0 ≤ I.kcMid) (h5 : 0 ≤ I.kcLate) :
    0 ≤ computeSeasonalKc I := by
  unfold computeSeasonalKc
  simp only [DEFAULT_STAGE_DAYS]
  split_ifs with hw hk
  · norm_num
  · exact h1
  · have n2 := mul_nonneg h2 (by norm_num : (0:ℚ) ≤ 20)
    have n3 := mul_nonneg h3 (by norm_num : (0:ℚ) ≤ 30)
    have n4 := mul_nonneg h4 (by norm_num : (0:ℚ) ≤ 40)
    have n5 := mul_nonneg h5 (by norm_num : (0:ℚ) ≤ 30)
    apply div_nonneg _ (by norm_num)
    linarith

/-- Claim C2, amended: for nonnegative Kc inputs and rainfall at least 0,
ET0 at most 0 makes ETc nonpositive (not necessarily zero) and the demand
exactly 0; the demand is 0 when the area is 0, and it is nonnegative
whenever the area is nonnegative.  Both the part_001 variant (first three
conjuncts) and the script.js variant (last three) are covered. -/
theorem water_demand_edge_cases (I : DemandInputs) (area kc eto rainfall : ℝ)
    (hkc : 0 ≤ I.kc) (hkcI : 0 ≤ I.kcInitial) (hkcD : 0 ≤ I.kcDevelopment)
    (hkcM : 0 ≤ I.kcMid) (hkcL : 0 ≤ I.kcLate) (hrain : 0 ≤ rainfall) :
    (I.eto ≤ 0 → (calculateWaterDemandLperDay I).etc ≤ 0 ∧
      (calculateWaterDemandLperDay I).waterDemandLday = 0) ∧
    (I.areaRai = 0 → (calculateWaterDemandLperDay I).waterDemandLday = 0) ∧
    (0 ≤ I.areaRai → 0 ≤ (calculateWaterDemandLperDay I).waterDemandLday) ∧
    (eto ≤ 0 → 0 ≤ kc → calculateWaterDemand area kc eto rainfall = 0) ∧
    (area = 0 → calculateWaterDemand area kc eto rainfall = 0) ∧
    (0 ≤ area → 0 ≤ calculateWaterDemand area kc eto rainfall) := by
  have hkcS := computeSeasonalKc_nonneg I hkc hkcI hkcD hkcM hkcL
  have hPe : 0 ≤ calculateEffectiveRainFAO56 I.rainfall := le_max_left _ _
  have heff : (0:ℚ) < max 0.01 ((if I.efficiency = 0 then 80 else I.efficiency) / 100) :=
    lt_of_lt_of_le (by norm_num) (le_max_left _ _)
  simp only [calculateWaterDemandLperDay, calculateWaterDemand]
  refine ⟨?_, ?_, ?_, ?_, ?_, ?_⟩
  · intro het
    have hetc : I.eto * computeSeasonalKc I ≤ 0 := mul_nonpos_of_nonpos_of_nonneg het hkcS
    refine ⟨hetc, ?_⟩
    have hnet : max 0 (I.eto * computeSeasonalKc I - calculateEffectiveRainFAO56 I.rainfall) = 0 :=
      max_eq_left (by linarith)
    rw [hnet, zero_div, zero_mul]
  · intro ha
    rw [ha]
    ring
  · intro ha
    exact mul_nonneg (div_nonneg (le_max_left _ _) heff.le) (by positivity)
  · intro het hk
    have : kc * eto - rainfall ≤ 0 := by nlinarith
    rw [max_eq_left this, zero_mul, zero_mul]
  · intro ha
    rw [ha, mul_zero, zero_mul]
  · intro ha
    exact mul_nonneg (mul_nonneg (le_max_left _ _) ha) (by norm_num)

/-- Witness for claim C2 at a concrete input with ET0 = -1: the demand
evaluates to 0. -/
theorem water_demand_edge_cases_witness :
    (calculateWaterDemandLperDay
        { areaRai := 10, kc := 0, kcInitial := 0.5, kcDevelopment := 0.5, kcMid := 0.5,
          kcLate := 0.5, eto := -1, rainfall := 0, efficiency := 80 }).waterDemandLday = 0 :=
  ((water_demand_edge_cases
      { areaRai := 10, kc := 0, kcInitial := 0.5, kcDevelopment := 0.5, kcMid := 0.5,
        kcLate := 0.5, eto := -1, rainfall := 0, efficiency := 80 }
      2 1 (-1) 0 (by norm_num) (by norm_num) (by norm_num) (by norm_num) (by norm_num)
      (by norm_num)).1 (by norm_num)).2

/-- Claim C3: the USDA-SCS effective-rainfall curve is monotonically
non-decreasing for 0 ≤ P1 ≤ P2, and is 0 at 0. -/
theorem effectiveRain_monotone (P1 P2 : ℚ) (h0 : 0 ≤ P1) (h12 : P1 ≤ P2) :
    calculateEffectiveRainFAO56 P1 ≤ calculateEffectiveRainFAO56 P2 ∧
      calculateEffectiveRainFAO56 0 = 0 := by
  refine ⟨?_, by norm_num [calculateEffectiveRainFAO56]⟩
  unfold calculateEffectiveRainFAO56
  rw [max_eq_right h0, max_eq_right (h0.trans h12)]
  apply max_le_max le_rfl
  rcases le_or_lt P1 250 with hb1 | hb1 <;> rcases le_or_lt P2 250 with hb2 | hb2
  · simp only [if_pos hb1, if_pos hb2]
    rw [div_le_div_iff_of_pos_right (by norm_num : (0:ℚ) < 125)]
    nlinarith [mul_nonneg (sub_nonneg.2 h12) (sub_nonneg.2 (by linarith : P1 + P2 ≤ 625))]
  · simp only [if_pos hb1, if_neg (not_le.2 hb2)]
    have hle : P1 * (125 - 0.2 * P1) / 125 ≤ 150 := by
      rw [div_le_iff₀ (by norm_num : (0:ℚ) < 125)]
      nlinarith [mul_nonneg (sub_nonneg.2 hb1) (sub_nonneg.2 (by linarith : P1 ≤ 375))]
    nlinarith
  · linarith
  · simp only [if_neg (not_le.2 hb1), if_neg (not_le.2 hb2)]
    nlinarith

/-- Witness for claim C3 at rainfall values 3 and 7. -/
theorem effectiveRain_monotone_witness :
    calculateEffectiveRainFAO56 3 ≤ calculateEffectiveRainFAO56 7 ∧
      calculateEffectiveRainFAO56 0 = 0 :=
  effectiveRain_monotone 3 7 (by norm_num) (by norm_num)

/-- Claim C4: for positive flow, length and diameter, the head-loss
percentage is in [0, 100] and equals the Hazen-Williams loss over the
30 m operating head, times 100, clamped to those bounds. -/
theorem headLossPercent_in_range (Q L D : ℝ) (hQ : 0 < Q) (hL : 0 < L) (hD : 0 < D) :
    0 ≤ headLossPercentOf Q L D ∧ headLossPercentOf Q L D ≤ 100 ∧
      headLossPercentOf Q L D = max 0 (min 100 (hazenWilliamsHf Q L D / 30 * 100)) :=
  ⟨le_max_left _ _, max_le (by norm_num) (min_le_left _ _), rfl⟩

/-- Witness for claim C4 at flow 1, length 1, diameter 1. -/
theorem headLossPercent_in_range_witness :
    0 ≤ headLossPercentOf 1 1 1 ∧ headLossPercentOf 1 1 1 ≤ 100 ∧
      headLossPercentOf 1 1 1 = max 0 (min 100 (hazenWilliamsHf 1 1 1 / 30 * 100)) :=
  headLossPercent_in_range 1 1 1 (by norm_num) (by norm_num) (by norm_num)

/-- Claim C5, counterexample: with a user setting of 10 m the script.js
solver returns 10, below its 50 m floor, so the result is not clamped
between the floor and the user setting; and with a user setting of 0 the
part_001 solver returns a positive length, above the user setting,
because the zero setting is replaced by the default 100. -/
theorem maxLateral_below_floor_cex :
    (maxLateralLengthOf 30000 110 10 = 10 ∧ (10 : ℝ) < 50) ∧
      0 < calculateMaxLateralLengthFromDemand 0 110 0 24 := by
  refine ⟨⟨min_eq_left ((by norm_num : (10:ℝ) ≤ 50).trans (le_max_left _ _)), by norm_num⟩, ?_⟩
  simp only [calculateMaxLateralLengthFromDemand, if_pos rfl]
  exact lt_of_lt_of_le (by norm_num)
    (le_min (by norm_num) ((by norm_num : (20:ℝ) ≤ 20).trans (le_max_left _ _)))

/-- Claim C5, amended: for every demand, diameter and a nonzero user
max-lateral setting, the result never exceeds the user setting and is
never below the minimum of the policy floor and the user setting (floor
50 for the script.js variant, 20 for the part_001 variant); when the user
setting is at least the floor, the result is therefore in
[floor, userMaxLateralM]. -/
theorem maxLateral_clamped (demand diameterMm user hours : ℝ) (huser : user ≠ 0) :
    (maxLateralLengthOf demand diameterMm user ≤ user ∧
      min 50 user ≤ maxLateralLengthOf demand diameterMm user) ∧
    (calculateMaxLateralLengthFromDemand demand diameterMm user hours ≤ user ∧
      min 20 user ≤ calculateMaxLateralLengthFromDemand demand diameterMm user hours) := by
  constructor
  · exact ⟨min_le_left _ _,
      le_min (min_le_right _ _) ((min_le_left _ _).trans (le_max_left _ _))⟩
  · simp only [calculateMaxLateralLengthFromDemand, if_neg huser]
    exact ⟨min_le_left _ _,
      le_min (min_le_right _ _) ((min_le_left _ _).trans (le_max_left _ _))⟩

/-- Witness for claim C5 at demand 0, diameter 110, user setting 100 and
24 operating hours. -/
theorem maxLateral_clamped_witness :
    (maxLateralLengthOf 0 110 100 ≤ 100 ∧ min 50 100 ≤ maxLateralLengthOf 0 110 100) ∧
    (calculateMaxLateralLengthFromDemand 0 110 100 24 ≤ 100 ∧
      min 20 100 ≤ calculateMaxLateralLengthFromDemand 0 110 100 24) :=
  maxLateral_clamped 0 110 100 24 (by norm_num)

/-- Claim C6: the totalCost exposed by the design response equals the sum
over the bill of materials of quantity times unit price, and equally the
sum of the total fields. -/
theorem bom_totalCost_eq_sum (area kc eto rainfall diameterMm maxLateral : ℝ) :
    (buildDesignResponseFromState area kc eto rainfall diameterMm maxLateral).totalCost =
      (((buildDesignResponseFromState area kc eto rainfall diameterMm maxLateral).bom).map
        (fun it => it.quantity * it.unitPrice)).sum ∧
    (buildDesignResponseFromState area kc eto rainfall diameterMm maxLateral).totalCost =
      (((buildDesignResponseFromState area kc eto rainfall diameterMm maxLateral).bom).map
        (fun it => it.total)).sum := by
  constructor <;> simp [buildDesignResponseFromState, calculateBOM]

/-- Claim C7: re-deriving the zone count as max(1, ceil(demand / 50000))
and the per-zone length as ceil(pipeLength / zoneCount) from the fields of
the built design response reproduces zones.count, zones.lengthPerZoneM and
the lengthM of every zone detail. -/
theorem design_response_zone_roundtrip (area kc eto rainfall diameterMm maxLateral : ℝ) :
    zoneCountOf
        (buildDesignResponseFromState area kc eto rainfall diameterMm maxLateral).waterDemandLday =
      (buildDesignResponseFromState area kc eto rainfall diameterMm maxLateral).zonesCount ∧
    lengthPerZoneOf
        (buildDesignResponseFromState area kc eto rainfall diameterMm maxLateral).pipeLengthM
        (zoneCountOf
          (buildDesignResponseFromState area kc eto rainfall diameterMm
            maxLateral).waterDemandLday) =
      (buildDesignResponseFromState area kc eto rainfall diameterMm maxLateral).zonesLengthPerZoneM ∧
    ∀ d ∈ (buildDesignResponseFromState area kc eto rainfall diameterMm maxLateral).zoneDetails,
      d.lengthM =
        lengthPerZoneOf
          (buildDesignResponseFromState area kc eto rainfall diameterMm maxLateral).pipeLengthM
          (zoneCountOf
            (buildDesignResponseFromState area kc eto rainfall diameterMm
              maxLateral).waterDemandLday) := by
  refine ⟨rfl, rfl, ?_⟩
  intro d hd
  simp only [buildDesignResponseFromState, List.mem_map] at hd
  obtain ⟨i, _, rfl⟩ := hd
  rfl


/-- Helper: the fold of peakStep dominates the seed and every folded
element. -/
theorem foldl_peakStep_le (t : List MonthRecord) (h : MonthRecord) :
    ∀ x, (x = h ∨ x ∈ t) → x.waterDemand ≤ (t.foldl peakStep h).waterDemand := by
  induction t generalizing h with
  | nil =>
    rintro x (rfl | hx)
    · exact le_rfl
    · cases hx
  | cons a t ih =>
    have hstep : ∀ y : MonthRecord, y.waterDemand ≤ (peakStep y a).waterDemand := by
      intro y
      unfold peakStep
      split_ifs with hcase
      · exact le_of_lt hcase
      · exact le_rfl
    have hstepa : ∀ y : MonthRecord, a.waterDemand ≤ (peakStep y a).waterDemand := by
      intro y
      unfold peakStep
      split_ifs with hcase
      · exact le_rfl
      · exact le_of_not_lt hcase
    rintro x (rfl | hx)
    · exact le_trans (hstep x) (ih (peakStep x a) (peakStep x a) (Or.inl rfl))
    · rcases List.mem_cons.mp hx with rfl | hx2
      · exact le_trans (hstepa h) (ih (peakStep h x) (peakStep h x) (Or.inl rfl))
      · exact ih (peakStep h a) x (Or.inr hx2)

/-- Helper: the fold of peakStep returns the seed or one of the folded
elements. -/
theorem foldl_peakStep_mem (t : List MonthRecord) (h : MonthRecord) :
    t.foldl peakStep h = h ∨ t.foldl peakStep h ∈ t := by
  induction t generalizing h with
  | nil => exact Or.inl rfl
  | cons a t ih =>
    rw [List.foldl_cons]
    rcases ih (peakStep h a) with heq | hmem
    · rw [heq]
      unfold peakStep
      split_ifs
      · exact Or.inr (List.mem_cons_self a t)
      · exact Or.inl rfl
    · exact Or.inr (List.mem_cons_of_mem a hmem)

/-- Claim C8: the peak month reported by the seasonal simulation is an
argmax of the per-month demand, and a month with strictly maximal demand
is returned as the peak record. -/
theorem seasonal_peak_is_argmax (kcInitial kcMid kcLate area : ℚ) (eto rain : ℕ → ℚ)
    (r : MonthRecord)
    (hr : runSeasonalPeakMonth kcInitial kcMid kcLate area eto rain = some r) :
    (∀ i < 12,
      (monthRecord kcInitial kcMid kcLate area eto rain i).waterDemand ≤ r.waterDemand) ∧
    ∀ m < 12,
      (∀ j < 12, j ≠ m →
        (monthRecord kcInitial kcMid kcLate area eto rain j).waterDemand <
          (monthRecord kcInitial kcMid kcLate area eto rain m).waterDemand) →
      r = monthRecord kcInitial kcMid kcLate area eto rain m := by
  rcases hl : monthlyData kcInitial kcMid kcLate area eto rain with _ | ⟨hd, tl⟩
  · exact absurd (congrArg List.length hl) (by simp [monthlyData])
  · have hr' : r = tl.foldl peakStep hd := by
      have hcopy := hr
      rw [runSeasonalPeakMonth, hl] at hcopy
      exact (Option.some_injective _ hcopy).symm
    have hub : ∀ i < 12,
        (monthRecord kcInitial kcMid kcLate area eto rain i).waterDemand ≤ r.waterDemand := by
      intro i hi
      have hmem : monthRecord kcInitial kcMid kcLate area eto rain i ∈
          monthlyData kcInitial kcMid kcLate area eto rain :=
        List.mem_map_of_mem _ (List.mem_range.mpr hi)
      rw [hl] at hmem
      rw [hr']
      exact foldl_peakStep_le tl hd _ (List.mem_cons.mp hmem)
    refine ⟨hub, ?_⟩
    intro m hm hstrict
    have hrmem : r ∈ monthlyData kcInitial kcMid kcLate area eto rain := by
      rw [hl, hr']
      rcases foldl_peakStep_mem tl hd with heq | hmem
      · rw [heq]; exact List.mem_cons_self hd tl
      · exact List.mem_cons_of_mem hd hmem
    rw [monthlyData] at hrmem
    obtain ⟨i, hi, hfi⟩ := List.mem_map.mp hrmem
    rcases eq_or_ne i m with rfl | hne
    · exact hfi.symm
    · exfalso
      have hlt := hstrict i (List.mem_range.mp hi) hne
      have hge := hub m hm
      rw [← hfi] at hge
      exact absurd (lt_of_le_of_lt hge hlt) (lt_irrefl _)

/-- Witness for claim C8: with ET0 10 in month 5 and 1 elsewhere and zero
rainfall, the demand of month 0 is bounded by the demand of the peak
record, which the fold indeed returns as month 5. -/
theorem seasonal_peak_is_argmax_witness :
    (monthRecord 1 1 1 1 (fun i => if i = 5 then 10 else 1) (fun _ => 0) 0).waterDemand ≤
      (monthRecord 1 1 1 1 (fun i => if i = 5 then 10 else 1) (fun _ => 0) 5).waterDemand := by
  have hr : runSeasonalPeakMonth 1 1 1 1 (fun i => if i = 5 then 10 else 1) (fun _ => 0) =
      some (monthRecord 1 1 1 1 (fun i => if i = 5 then 10 else 1) (fun _ => 0) 5) := by
    norm_num [runSeasonalPeakMonth, monthlyData, jsReduceMax, List.range_succ,
      monthRecord, peakStep]
  exact (seasonal_peak_is_argmax 1 1 1 1 _ _ _ hr).1 0 (by norm_num)

/-- Claim C9: the bill of materials always has exactly seven line items in
the fixed order main pipe, lateral pipes, fittings, valves, emitters,
pump, controller, and the pump and controller items have quantity 1. -/
theorem bom_structure (area kc eto rainfall diameterMm : ℝ) :
    ((calculateBOM area kc eto rainfall diameterMm).map (fun it => it.item)) =
      [ItemName.mainPipe diameterMm, ItemName.lateralPipes, ItemName.pipeFittings,
       ItemName.controlValves, ItemName.dripEmitters, ItemName.irrigationPump,
       ItemName.irrigationController] ∧
    (calculateBOM area kc eto rainfall diameterMm).length = 7 ∧
    ∀ it ∈ calculateBOM area kc eto rainfall diameterMm,
      (it.item = ItemName.irrigationPump ∨ it.item = ItemName.irrigationController) →
        it.quantity = 1 := by
  refine ⟨rfl, rfl, ?_⟩
  intro it hit h
  simp only [calculateBOM, List.mem_cons, List.not_mem_nil, or_false] at hit
  rcases hit with rfl | rfl | rfl | rfl | rfl | rfl | rfl <;>
    first
      | rfl
      | (rcases h with h | h <;> exact ItemName.noConfusion h)

/-- Witness for claim C9 at area 1, Kc 1, ET0 1, rainfall 1 and
diameter 110. -/
theorem bom_structure_witness :
    ((calculateBOM 1 1 1 1 110).map (fun it => it.item)) =
      [ItemName.mainPipe 110, ItemName.lateralPipes, ItemName.pipeFittings,
       ItemName.controlValves, ItemName.dripEmitters, ItemName.irrigationPump,
       ItemName.irrigationController] :=
  (bom_structure 1 1 1 1 110).1

/-- Claim C10: with zoneCount = max(1, ceil(demand / 50000)) and
lengthPerZone = ceil(pipeLength / zoneCount), the zones cover the whole
network and the overshoot is less than the zone count. -/
theorem zone_partition_covers (demand pipeLength : ℝ)
    (hd : 0 ≤ demand) (hL : 0 ≤ pipeLength) :
    pipeLength ≤
      (zoneCountOf demand : ℝ) * (lengthPerZoneOf pipeLength (zoneCountOf demand) : ℝ) ∧
    (zoneCountOf demand : ℝ) * (lengthPerZoneOf pipeLength (zoneCountOf demand) : ℝ) -
        pipeLength < (zoneCountOf demand : ℝ) := by
  have hz1 : (1 : ℤ) ≤ zoneCountOf demand := le_max_left _ _
  have hzR : (0 : ℝ) < (zoneCountOf demand : ℝ) := by exact_mod_cast zero_lt_one.trans_le hz1
  have hceil : pipeLength / (zoneCountOf demand : ℝ) ≤
      (lengthPerZoneOf pipeLength (zoneCountOf demand) : ℝ) := Int.le_ceil _
  have hceil2 : (lengthPerZoneOf pipeLength (zoneCountOf demand) : ℝ) <
      pipeLength / (zoneCountOf demand : ℝ) + 1 := Int.ceil_lt_add_one _
  have hmul := mul_le_mul_of_nonneg_left hceil hzR.le
  have hmul2 := mul_lt_mul_of_pos_left hceil2 hzR
  have hid : (zoneCountOf demand : ℝ) * (pipeLength / (zoneCountOf demand : ℝ)) = pipeLength := by
    field_simp
  have hid2 : (zoneCountOf demand : ℝ) * (pipeLength / (zoneCountOf demand : ℝ) + 1) =
      pipeLength + (zoneCountOf demand : ℝ) := by
    rw [mul_add, hid, mul_one]
  constructor
  · rw [hid] at hmul
    exact hmul
  · rw [hid2] at hmul2
    linarith

/-- Witness for claim C10 at demand 0 and pipe length 0. -/
theorem zone_partition_covers_witness :
    (0:ℝ) ≤ 0 ∧
    ((0:ℝ) ≤ (zoneCountOf 0 : ℝ) * (lengthPerZoneOf 0 (zoneCountOf 0) : ℝ) ∧
      (zoneCountOf 0 : ℝ) * (lengthPerZoneOf 0 (zoneCountOf 0) : ℝ) - 0 < (zoneCountOf 0 : ℝ)) :=
  ⟨le_refl 0, zone_partition_covers 0 0 le_rfl le_rfl⟩

end Theorems

end IrrigationPlanner

